import Mathlib

/-!
Shallow embedding of the ticket-routing logic of `supportscript.py`
(classes `TicketAnalyzerAgent`, `DatabaseQueryAgent`,
`TechnicalProblemSolverAgent`, `EmailReplyAgent`,
`IntelligentSupportOrchestrator`).

External collaborators (the Azure OpenAI completion service and the
PostgreSQL store) are modelled by explicit behaviour values: each call
site receives one behaviour describing what the collaborator does there
(raise, return text, fail to connect, return a row, ...).  Python string
operations used by the code (`str.strip`, `str.startswith`, slicing) are
embedded as executable functions over the string's character list, and
Python truthiness tests (`if not customer_id`, `if ticket_id`,
`if gathered_data.get(...)`) are embedded as explicit `truthy*`
functions matching Python's semantics for `None`, `str`, `int` and
`dict` values.
-/

namespace Support

/-! ## Embedded Python string primitives -/

/-- Whitespace characters removed by Python's `str.strip()`. -/
def pySpace (c : Char) : Bool :=
  c = ' ' ∨ c = '\t' ∨ c = '\n' ∨ c = '\r' ∨ c = Char.ofNat 11 ∨ c = Char.ofNat 12

/-- Embedding of Python `s.strip()`: drop whitespace from both ends. -/
def pyStrip (s : String) : String :=
  String.mk ((((s.data.dropWhile pySpace).reverse).dropWhile pySpace).reverse)

/-- Embedding of Python `s.startswith(p)`. -/
def pyStartsWith (s p : String) : Bool :=
  p.data.isPrefixOf s.data

/-- Embedding of the Python slice `s[7:-3]` used to unwrap a fenced
code block in `TicketAnalyzerAgent.analyze_ticket`. -/
def pySlice7minus3 (s : String) : String :=
  let l := s.data.drop 7
  String.mk (l.take (l.length - 3))

/-! ## Completion Service (`call_openai`) -/

/-- Behaviour of one underlying completion request: the
`client.chat.completions.create` call either raises an exception whose
message is `e`, or returns the generated text `s`. -/
inductive CompletionBehavior where
  | raises (e : String)
  | returns (s : String)
deriving DecidableEq

/-- Embedding of `call_openai`: the wrapper catches every exception and
converts it into the text `"An error occurred: " ++ e`; it never raises. -/
def call_openai : CompletionBehavior → String
  | .raises e => "An error occurred: " ++ e
  | .returns s => s

/-! ## Ticket classification (`TicketAnalyzerAgent`) -/

/-- The six-field classification record requested from the completion
service by `analyze_ticket` (§ the system prompt lists exactly these keys). -/
structure Analysis where
  ticket_type : String
  urgency : String
  requires_customer_data : Bool
  requires_technical_help : Bool
  customer_sentiment : String
  estimated_resolution_time : String
deriving DecidableEq

/-- The fixed fallback classification substituted by `analyze_ticket`
when parsing the service response fails. -/
def fallbackAnalysis : Analysis :=
  { ticket_type := "general_inquiry"
    urgency := "medium"
    requires_customer_data := true
    requires_technical_help := false
    customer_sentiment := "neutral"
    estimated_resolution_time := "15min" }

/-- The response preprocessing in `analyze_ticket`: if the stripped
response starts with a ```json fence, take `response.strip()[7:-3].strip()`,
else keep the response unchanged. -/
def stripCodeFence (response : String) : String :=
  if pyStartsWith (pyStrip response) "```json" then
    pyStrip (pySlice7minus3 (pyStrip response))
  else response

/-- Behaviour of the store at the `INSERT INTO tickets` call of
`_save_ticket_to_db`: the connection fails, or the insert commits and
returns the serial `ticket_id`, or the insert raises (then the code
rolls back). -/
inductive InsertBehavior where
  | connFail
  | committed (ticket_id : Nat)
  | raised (e : String)
deriving DecidableEq

/-- Embedding of `_save_ticket_to_db`'s returned ticket id: `None` when
the connection failed or the insert raised (after rollback), otherwise
the id returned by the store. -/
def save_ticket_to_db : InsertBehavior → Option Nat
  | .connFail => none
  | .committed tid => some tid
  | .raised _ => none

/-- The arguments `analyze_ticket` passes to `_save_ticket_to_db`; the
insert is attempted with exactly these values. -/
structure SaveCall where
  analysis : Analysis
  customer_id : Option String
  incoming_content : String
deriving DecidableEq

/-- What `analyze_ticket` produces: the analysis dict (with the
`ticket_id` key the code adds to it afterwards, modelled as a separate
field) together with the record of the attempted insert. -/
structure AnalyzeResult where
  analysis : Analysis
  ticket_id : Option Nat
  save_call : SaveCall
deriving DecidableEq

/-- Embedding of `TicketAnalyzerAgent.analyze_ticket`.  `parse` models
`json.loads` followed by reading the six keys: it yields `some a` when
the text is a JSON object carrying the six fields and `none` when
parsing raises (non-JSON text, e.g. the error text produced by
`call_openai` on a service failure).  The `try/except` around the call
and the parse substitutes `fallbackAnalysis` on failure; the insert is
attempted unconditionally afterwards. -/
def analyze_ticket (parse : String → Option Analysis)
    (llm : CompletionBehavior) (db : InsertBehavior)
    (ticket_content : String) (customer_id : Option String) : AnalyzeResult :=
  let response := call_openai llm
  let analysis :=
    match parse (stripCodeFence response) with
    | some a => a
    | none => fallbackAnalysis
  { analysis := analysis
    ticket_id := save_ticket_to_db db
    save_call :=
      { analysis := analysis
        customer_id := customer_id
        incoming_content := ticket_content } }

/-- Behaviour of the store at the `UPDATE tickets` call of
`update_ticket_recommendation`. -/
inductive UpdateBehavior where
  | connFail
  | committed
  | raised (e : String)
deriving DecidableEq

/-- Observable outcome of `update_ticket_recommendation`: the function
always returns; this value records what it did on the way. -/
inductive UpdateOutcome where
  | skipped
  | noConnection
  | updated (ticket_id : Nat) (recommended_answer : String)
  | rolledBack (e : String)
deriving DecidableEq

/-- Embedding of `TicketAnalyzerAgent.update_ticket_recommendation`.
The guard `if not ticket_id: return` fires on Python-falsy ids, i.e. on
`None` and on `0`; on a store exception the code rolls back, logs and
returns. -/
def update_ticket_recommendation (db : UpdateBehavior)
    (ticket_id : Option Nat) (recommended_answer : String) : UpdateOutcome :=
  match ticket_id with
  | none => .skipped
  | some tid =>
    if tid = 0 then .skipped
    else
      match db with
      | .connFail => .noConnection
      | .committed => .updated tid recommended_answer
      | .raised e => .rolledBack e

/-! ## Customer lookup (`DatabaseQueryAgent`) -/

/-- A calendar date as stored in the `join_date` / `last_payment`
columns. -/
structure Date where
  year : Nat
  month : Nat
  day : Nat
deriving DecidableEq

def pad2 (n : Nat) : String :=
  if n < 10 then "0" ++ toString n else toString n

def pad4 (n : Nat) : String :=
  if n < 10 then "000" ++ toString n
  else if n < 100 then "00" ++ toString n
  else if n < 1000 then "0" ++ toString n
  else toString n

/-- Embedding of `date.strftime("%Y-%m-%d")`. -/
def strftimeYMD (d : Date) : String :=
  pad4 d.year ++ "-" ++ pad2 d.month ++ "-" ++ pad2 d.day

/-- A value of the dict returned by `query_customer_info`: a string, a
native date object, a history list, or SQL NULL (Python `None`). -/
inductive Value where
  | str (s : String)
  | date (d : Date)
  | list (l : List String)
  | null
deriving DecidableEq

/-- The returned dict, as an association list in SELECT-column order. -/
abbrev Record := List (String × Value)

/-- A row of the `customer_support` table (§ the store schema: only
`support_history` is nullable, but the embedding keeps the dates
optional because the code tests them for truthiness). -/
structure CustomerRow where
  customer_id : String
  name : String
  email : String
  plan : String
  join_date : Option Date
  last_payment : Option Date
  support_history : Option (List String)
deriving DecidableEq

def optDateValue : Option Date → Value
  | some d => .date d
  | none => .null

def optHistValue : Option (List String) → Value
  | some l => .list l
  | none => .null

/-- Behaviour of the store at the SELECT of `query_customer_info`. -/
inductive QueryBehavior where
  | connFail
  | raised (e : String)
  | found (row : CustomerRow)
  | notFound
deriving DecidableEq

/-- Result of `query_customer_info`: in Python both shapes are dicts;
`err msg` stands for the dict with the single key `"error"`. -/
inductive LookupResult where
  | ok (data : Record)
  | err (msg : String)
deriving DecidableEq

/-- The post-processing of a fetched row in `query_customer_info`:
truthy `join_date` / `last_payment` values (native dates) are replaced
by `strftime('%Y-%m-%d')` strings, and a `support_history` that is
`None` is replaced by the empty list. -/
def convertRow (data : Record) : Record :=
  data.map fun kv =>
    if kv.1 = "join_date" ∨ kv.1 = "last_payment" then
      match kv.2 with
      | .date d => (kv.1, .str (strftimeYMD d))
      | v => (kv.1, v)
    else if kv.1 = "support_history" then
      match kv.2 with
      | .null => (kv.1, .list [])
      | v => (kv.1, v)
    else kv

/-- Embedding of `DatabaseQueryAgent.query_customer_info`.  The id is
validated first (`if not customer_id or not customer_id.startswith('CUST')`),
then the connection is attempted, then the scope-specific SELECT runs;
every failure is returned as an error dict, never raised. -/
def query_customer_info (db : QueryBehavior) (customer_id : String)
    (query_type : String) : LookupResult :=
  if customer_id = "" ∨ pyStartsWith customer_id "CUST" = false then
    .err ("Invalid customer ID format: " ++ customer_id ++ ". Expected format: CUSTXXX")
  else
    match db with
    | .connFail => .err "Database connection failed"
    | .raised e => .err ("Database query failed: " ++ e)
    | .notFound => .err ("Customer " ++ customer_id ++ " not found in database")
    | .found row =>
      let raw : Record :=
        if query_type = "billing" then
          [("name", .str row.name), ("plan", .str row.plan),
           ("last_payment", optDateValue row.last_payment),
           ("status", .str "Active")]
        else if query_type = "history" then
          [("name", .str row.name),
           ("support_history", optHistValue row.support_history),
           ("join_date", optDateValue row.join_date)]
        else
          [("customer_id", .str row.customer_id), ("name", .str row.name),
           ("email", .str row.email), ("plan", .str row.plan),
           ("join_date", optDateValue row.join_date),
           ("last_payment", optDateValue row.last_payment),
           ("support_history", optHistValue row.support_history)]
      .ok (convertRow raw)

/-! ## Other worker agents -/

/-- Embedding of `TechnicalProblemSolverAgent.solve_technical_issue`:
a single completion call returning opaque prose. -/
def solve_technical_issue (llm : CompletionBehavior) : String :=
  call_openai llm

/-- Embedding of `EmailReplyAgent.compose_reply`: a single completion
call returning opaque prose. -/
def compose_reply (llm : CompletionBehavior) : String :=
  call_openai llm

/-! ## Orchestrator (`IntelligentSupportOrchestrator`) -/

/-- Embedding of `IntelligentSupportOrchestrator.extract_customer_id`:
strip the service answer, then map the sentinel `"NONE"` and every
answer whose stripped form does not start with `CUST` to `None`. -/
def extract_customer_id (llm : CompletionBehavior) : Option String :=
  let response := call_openai llm
  let extracted_id := pyStrip response
  if extracted_id = "NONE" ∨ pyStartsWith extracted_id "CUST" = false then none
  else some extracted_id

/-- Python truthiness of the optional `customer_id` argument
(`if not customer_id:`): `None` and the empty string are falsy. -/
def truthyId : Option String → Bool
  | none => false
  | some s => decide (s ≠ "")

/-- Python truthiness of `ticket_analysis.get('ticket_id')`: `None` and
`0` are falsy. -/
def truthyTicketId : Option Nat → Bool
  | none => false
  | some n => decide (n ≠ 0)

/-- Python truthiness of `gathered_data.get("customer_info")`: `None`
is falsy, a dict is truthy iff it is non-empty (an error dict has the
key `"error"`, hence is truthy). -/
def truthyInfo : Option LookupResult → Bool
  | none => false
  | some (.err _) => true
  | some (.ok data) => decide (data ≠ [])

/-- Python truthiness of `gathered_data.get("technical_solution")`:
`None` and the empty string are falsy. -/
def truthySolution : Option String → Bool
  | none => false
  | some s => decide (s ≠ "")

/-- The id-resolution step of `process_support_ticket`
(`if not customer_id: customer_id = self.extract_customer_id(...)`):
a falsy caller-supplied id is replaced by the extractor's result. -/
def routedId (extractLLM : CompletionBehavior) (customer_id : Option String) :
    Option String :=
  if truthyId customer_id then customer_id else extract_customer_id extractLLM

/-- The scope selection of STEP 2 of `process_support_ticket`:
`billing` tickets use the billing query, `account` tickets the history
query, everything else the full query. -/
def scopeFor (ticket_type : String) : String :=
  if ticket_type = "billing" then "billing"
  else if ticket_type = "account" then "history"
  else "full"

/-- One environment of collaborator behaviours for a single
`process_support_ticket` run: one behaviour per call site, in the order
the sites occur. -/
structure Env where
  parse : String → Option Analysis
  extractLLM : CompletionBehavior
  analyzeLLM : CompletionBehavior
  insertDB : InsertBehavior
  queryDB : QueryBehavior
  techLLM : CompletionBehavior
  replyLLM : CompletionBehavior
  updateDB : UpdateBehavior

/-- The arguments of an invocation of `query_customer_info` by the
orchestrator. -/
structure LookupCall where
  customer_id : String
  query_type : String
deriving DecidableEq

/-- The dict returned by `process_support_ticket` (the `analysis` entry
carries the classification plus the `ticket_id` key, modelled as two
fields). -/
structure RoutingResult where
  final_reply : String
  analysis : Analysis
  ticket_id : Option Nat
  agents_used : List String
  customer_info : Option LookupResult
  technical_solution : Option String
deriving DecidableEq

/-- Trace of the collaborator invocations a `process_support_ticket`
run performed. -/
structure Trace where
  extractorInvoked : Bool
  save_call : SaveCall
  lookup_call : Option LookupCall
  techInvoked : Bool
  update_outcome : Option UpdateOutcome
deriving DecidableEq

/-- Embedding of `IntelligentSupportOrchestrator.process_support_ticket`,
returning the result dict together with the invocation trace. -/
def process_support_ticket (env : Env) (ticket_content : String)
    (customer_id : Option String) : RoutingResult × Trace :=
  let cid := routedId env.extractLLM customer_id
  let ar := analyze_ticket env.parse env.analyzeLLM env.insertDB ticket_content cid
  let a := ar.analysis
  let lookup_call : Option LookupCall :=
    if a.requires_customer_data && truthyId cid then
      some { customer_id := cid.getD "", query_type := scopeFor a.ticket_type }
    else none
  let customer_info : Option LookupResult :=
    lookup_call.map fun c => query_customer_info env.queryDB c.customer_id c.query_type
  let technical_solution : Option String :=
    if a.requires_technical_help then some (solve_technical_issue env.techLLM)
    else none
  let final_reply := compose_reply env.replyLLM
  let update_outcome : Option UpdateOutcome :=
    if truthyTicketId ar.ticket_id then
      some (update_ticket_recommendation env.updateDB ar.ticket_id final_reply)
    else none
  let agents_used :=
    ["TicketAnalyzer"]
      ++ (if truthyInfo customer_info then ["DatabaseAgent"] else [])
      ++ (if truthySolution technical_solution then ["TechSolver"] else [])
      ++ ["ReplyAgent"]
  ({ final_reply := final_reply
     analysis := a
     ticket_id := ar.ticket_id
     agents_used := agents_used
     customer_info := customer_info
     technical_solution := technical_solution },
   { extractorInvoked := !truthyId customer_id
     save_call := ar.save_call
     lookup_call := lookup_call
     techInvoked := a.requires_technical_help
     update_outcome := update_outcome })

/-! ## Spec-side vocabulary and concrete inputs -/

/-- Spec-side predicate: does the returned dict still contain a native
date object among its values? -/
def recordHasDateObject (d : Record) : Bool :=
  d.any fun kv => match kv.2 with | .date _ => true | _ => false

/-- A classification of a technical ticket needing no customer data. -/
def techAnalysis : Analysis :=
  { ticket_type := "technical"
    urgency := "high"
    requires_customer_data := false
    requires_technical_help := true
    customer_sentiment := "neutral"
    estimated_resolution_time := "30min" }

/-- A classification of a billing ticket needing customer data. -/
def billingAnalysis : Analysis :=
  { ticket_type := "billing"
    urgency := "medium"
    requires_customer_data := true
    requires_technical_help := false
    customer_sentiment := "neutral"
    estimated_resolution_time := "15min" }

/-- A concrete customer row. -/
def row0 : CustomerRow :=
  { customer_id := "CUST001"
    name := "Sarah"
    email := "sarah@example.com"
    plan := "Premium"
    join_date := some ⟨2023, 5, 7⟩
    last_payment := some ⟨2024, 9, 1⟩
    support_history := none }

/-- Environment of a run whose classifier reports a technical ticket and
whose technical-solution call returns the empty string. -/
def envTech : Env :=
  { parse := fun _ => some techAnalysis
    extractLLM := .returns "NONE"
    analyzeLLM := .returns "whatever"
    insertDB := .committed 1
    queryDB := .notFound
    techLLM := .returns ""
    replyLLM := .returns "Antwort"
    updateDB := .committed }

/-- Environment of a run classified as a billing ticket that needs
customer data. -/
def envBilling : Env :=
  { parse := fun _ => some billingAnalysis
    extractLLM := .returns "NONE"
    analyzeLLM := .returns "whatever"
    insertDB := .committed 1
    queryDB := .found row0
    techLLM := .returns "tech"
    replyLLM := .returns "Antwort"
    updateDB := .committed }

/-- Environment of a run whose ticket insert fails to connect. -/
def envInsertFail : Env :=
  { parse := fun _ => none
    extractLLM := .returns "NONE"
    analyzeLLM := .returns "whatever"
    insertDB := .connFail
    queryDB := .notFound
    techLLM := .returns "tech"
    replyLLM := .returns "Antwort"
    updateDB := .committed }

/-- The record a full-scope lookup of `row0` returns. -/
def fullRecord0 : Record :=
  [("customer_id", .str "CUST001"), ("name", .str "Sarah"),
   ("email", .str "sarah@example.com"), ("plan", .str "Premium"),
   ("join_date", .str "2023-05-07"), ("last_payment", .str "2024-09-01"),
   ("support_history", .list [])]

/-! ## Helper lemmas -/

theorem process_analysis_eq (env : Env) (t : String) (cid0 : Option String) :
    (process_support_ticket env t cid0).1.analysis =
      (analyze_ticket env.parse env.analyzeLLM env.insertDB t
        (routedId env.extractLLM cid0)).analysis := rfl

theorem process_lookup_call_eq (env : Env) (t : String) (cid0 : Option String) :
    (process_support_ticket env t cid0).2.lookup_call =
      (if (analyze_ticket env.parse env.analyzeLLM env.insertDB t
              (routedId env.extractLLM cid0)).analysis.requires_customer_data
          && truthyId (routedId env.extractLLM cid0) then
         some { customer_id := (routedId env.extractLLM cid0).getD "",
                query_type := scopeFor (analyze_ticket env.parse env.analyzeLLM
                  env.insertDB t (routedId env.extractLLM cid0)).analysis.ticket_type }
       else none) := rfl

theorem process_customer_info_eq (env : Env) (t : String) (cid0 : Option String) :
    (process_support_ticket env t cid0).1.customer_info =
      ((process_support_ticket env t cid0).2.lookup_call).map
        (fun c => query_customer_info env.queryDB c.customer_id c.query_type) := rfl

theorem process_ticket_id_eq (env : Env) (t : String) (cid0 : Option String) :
    (process_support_ticket env t cid0).1.ticket_id =
      save_ticket_to_db env.insertDB := rfl

theorem process_update_outcome_eq (env : Env) (t : String) (cid0 : Option String) :
    (process_support_ticket env t cid0).2.update_outcome =
      (if truthyTicketId (save_ticket_to_db env.insertDB) then
        some (update_ticket_recommendation env.updateDB (save_ticket_to_db env.insertDB)
          (compose_reply env.replyLLM))
       else none) := rfl

theorem process_technical_solution_eq (env : Env) (t : String) (cid0 : Option String) :
    (process_support_ticket env t cid0).1.technical_solution =
      (if (analyze_ticket env.parse env.analyzeLLM env.insertDB t
              (routedId env.extractLLM cid0)).analysis.requires_technical_help then
         some (solve_technical_issue env.techLLM)
       else none) := rfl

theorem process_agents_used_eq (env : Env) (t : String) (cid0 : Option String) :
    (process_support_ticket env t cid0).1.agents_used =
      ["TicketAnalyzer"]
        ++ (if truthyInfo (process_support_ticket env t cid0).1.customer_info
            then ["DatabaseAgent"] else [])
        ++ (if truthySolution (process_support_ticket env t cid0).1.technical_solution
            then ["TechSolver"] else [])
        ++ ["ReplyAgent"] := rfl

theorem truthyId_some_getD (o : Option String) (h : truthyId o = true) :
    some (o.getD "") = o := by
  cases o with
  | none => simp [truthyId] at h
  | some s => rfl

theorem truthyId_getD_ne (o : Option String) (h : truthyId o = true) :
    o.getD "" ≠ "" := by
  cases o with
  | none => simp [truthyId] at h
  | some s => simpa [truthyId] using h

theorem query_customer_info_ok_ne_nil (db : QueryBehavior) (cid qt : String)
    (d : Record) (h : query_customer_info db cid qt = .ok d) : d ≠ [] := by
  unfold query_customer_info at h
  split at h
  · simp at h
  · cases db with
    | connFail => simp at h
    | raised e => simp at h
    | notFound => simp at h
    | found row =>
      simp only [LookupResult.ok.injEq] at h
      subst h
      by_cases hb : qt = "billing"
      · simp [hb, convertRow]
      · by_cases hh : qt = "history" <;> simp [hb, hh, convertRow]

theorem truthyInfo_process (env : Env) (t : String) (cid0 : Option String) :
    truthyInfo (process_support_ticket env t cid0).1.customer_info = true ↔
      (process_support_ticket env t cid0).1.customer_info ≠ none := by
  rw [process_customer_info_eq]
  cases hl : (process_support_ticket env t cid0).2.lookup_call with
  | none => simp [truthyInfo]
  | some c =>
    simp only [Option.map_some']
    cases hq : query_customer_info env.queryDB c.customer_id c.query_type with
    | err m => simp [truthyInfo]
    | ok d =>
      have hd : d ≠ [] := query_customer_info_ok_ne_nil _ _ _ d hq
      simp [truthyInfo, hd]

theorem truthySolution_iff (o : Option String) :
    truthySolution o = true ↔ ∃ s, o = some s ∧ s ≠ "" := by
  cases o with
  | none => simp [truthySolution]
  | some s => simp [truthySolution]

theorem string_data_append (a b : String) : (a ++ b).data = a.data ++ b.data := by
  cases a
  cases b
  rfl

theorem dropWhile_append_last (p : Char → Bool) (a : Char) (hpa : p a = false) :
    ∀ xs : List Char, ∃ w, List.dropWhile p (xs ++ [a]) = w ++ [a] := by
  intro xs
  induction xs with
  | nil => exact ⟨[], by simp [List.dropWhile, hpa]⟩
  | cons x xs ih =>
    by_cases hx : p x
    · simpa [List.dropWhile_cons, hx] using ih
    · exact ⟨x :: xs, by simp [List.dropWhile_cons, hx]⟩

theorem pyStrip_error_head (e : String) :
    ∃ w : List Char, (pyStrip ("An error occurred: " ++ e)).data = 'A' :: w := by
  have hdata : ("An error occurred: " ++ e).data
      = 'A' :: ("n error occurred: ".data ++ e.data) := by
    rw [string_data_append]
    rfl
  have hdrop : List.dropWhile pySpace ('A' :: ("n error occurred: ".data ++ e.data))
      = 'A' :: ("n error occurred: ".data ++ e.data) := by
    rw [List.dropWhile_cons]
    simp [show pySpace 'A' = false from by decide]
  obtain ⟨w, hw⟩ := dropWhile_append_last pySpace 'A' (by decide)
    ("n error occurred: ".data ++ e.data).reverse
  refine ⟨w.reverse, ?_⟩
  show (((("An error occurred: " ++ e).data.dropWhile pySpace).reverse).dropWhile
      pySpace).reverse = 'A' :: w.reverse
  rw [hdata, hdrop, List.reverse_cons, hw, List.reverse_append]
  rfl

theorem extract_raises_eq_none (e : String) :
    extract_customer_id (.raises e) = none := by
  obtain ⟨w, hw⟩ := pyStrip_error_head e
  have h1 : pyStartsWith (pyStrip ("An error occurred: " ++ e)) "CUST" = false := by
    unfold pyStartsWith
    rw [hw]
    show List.isPrefixOf ['C', 'U', 'S', 'T'] ('A' :: w) = false
    simp [List.isPrefixOf]
  show (if pyStrip ("An error occurred: " ++ e) = "NONE" ∨
      pyStartsWith (pyStrip ("An error occurred: " ++ e)) "CUST" = false then none
    else some (pyStrip ("An error occurred: " ++ e))) = none
  rw [if_pos (Or.inr h1)]

/-! ## Claim theorems -/

/-- C1: in every `process_support_ticket` run, the customer lookup is
invoked exactly when the classification has `requires_customer_data =
true` and the resolved customer id is known (truthy), the lookup scope
is chosen from the ticket type (`billing` → `billing`, `account` →
`history`, otherwise `full`) and the lookup key is the resolved id; and
when `requires_customer_data = false` the lookup is never invoked and
`customer_info` is `none`. -/
theorem routing_lookup_invocation (env : Env) (t : String) (cid0 : Option String) :
    ((process_support_ticket env t cid0).2.lookup_call.isSome ↔
      ((process_support_ticket env t cid0).1.analysis.requires_customer_data = true ∧
        truthyId (routedId env.extractLLM cid0) = true)) ∧
    (∀ c, (process_support_ticket env t cid0).2.lookup_call = some c →
        some c.customer_id = routedId env.extractLLM cid0 ∧
        c.query_type =
          scopeFor (process_support_ticket env t cid0).1.analysis.ticket_type) ∧
    ((process_support_ticket env t cid0).1.analysis.requires_customer_data = false →
        (process_support_ticket env t cid0).2.lookup_call = none ∧
        (process_support_ticket env t cid0).1.customer_info = none) := by
  rw [process_customer_info_eq, process_lookup_call_eq, process_analysis_eq]
  by_cases h1 : (analyze_ticket env.parse env.analyzeLLM env.insertDB t
      (routedId env.extractLLM cid0)).analysis.requires_customer_data
  · by_cases h2 : truthyId (routedId env.extractLLM cid0)
    · refine ⟨by simp [h1, h2], ?_, by simp [h1]⟩
      intro c hc
      simp only [h1, h2, Bool.and_self, if_true, Option.some.injEq] at hc
      subst hc
      exact ⟨truthyId_some_getD _ h2, rfl⟩
    · refine ⟨by simp [h1, h2], ?_, by simp [h1]⟩
      intro c hc
      simp [h1, h2] at hc
  · refine ⟨by simp [h1], ?_, by simp [h1]⟩
    intro c hc
    simp [h1] at hc

/-- Witness for C1: a billing-classified run with supplied id `CUST001`
invokes the lookup with scope `billing` and key `CUST001`. -/
theorem routing_lookup_invocation_witness :
    (process_support_ticket envBilling "Rechnung" (some "CUST001")).2.lookup_call =
      some { customer_id := "CUST001", query_type := "billing" } ∧
    ((process_support_ticket envBilling "Rechnung" (some "CUST001")).2.lookup_call.isSome ↔
      ((process_support_ticket envBilling "Rechnung"
          (some "CUST001")).1.analysis.requires_customer_data = true ∧
        truthyId (routedId envBilling.extractLLM (some "CUST001")) = true)) := by
  have h := routing_lookup_invocation envBilling "Rechnung" (some "CUST001")
  exact ⟨by decide, h.1⟩

/-- C2: whenever the completion response (after the fence-stripping
preprocessing) fails to parse — which covers a raising service, an
error string, and non-JSON text — `analyze_ticket` returns exactly the
fixed fallback classification (a complete six-field record by type),
surfaces no error (the embedding is total), and still attempts the
store insert with that fallback classification. -/
theorem analyze_ticket_fallback_total (parse : String → Option Analysis)
    (b : CompletionBehavior) (db : InsertBehavior) (t : String) (cid : Option String)
    (h : parse (stripCodeFence (call_openai b)) = none) :
    (analyze_ticket parse b db t cid).analysis = fallbackAnalysis ∧
    (analyze_ticket parse b db t cid).save_call =
      { analysis := fallbackAnalysis, customer_id := cid, incoming_content := t } ∧
    (analyze_ticket parse b db t cid).ticket_id = save_ticket_to_db db := by
  simp [analyze_ticket, h]

/-- Witness for C2 at a raising service call. -/
theorem analyze_ticket_fallback_total_witness :
    (analyze_ticket (fun _ => none) (.raises "service down") .connFail "Hallo" none).analysis
      = fallbackAnalysis ∧
    (analyze_ticket (fun _ => none) (.raises "service down") .connFail "Hallo" none).save_call
      = { analysis := fallbackAnalysis, customer_id := none, incoming_content := "Hallo" } ∧
    (analyze_ticket (fun _ => none) (.raises "service down") .connFail "Hallo" none).ticket_id
      = save_ticket_to_db .connFail :=
  analyze_ticket_fallback_total (fun _ => none) (.raises "service down") .connFail
    "Hallo" none rfl

/-- C3 counterexample: when the technical-solution call returns the
empty string, `technical_solution` is non-null (`some ""`) yet
`TechSolver` is NOT in `agents_used` — the code tests Python truthiness
of the string, not nullness — refuting the claimed "if and only if
technical_solution is non-null". -/
theorem agents_used_counterexample :
    (process_support_ticket envTech "ticket" none).1.technical_solution = some "" ∧
    "TechSolver" ∉ (process_support_ticket envTech "ticket" none).1.agents_used := by
  decide

/-- C3 (amended): `agents_used` begins with `TicketAnalyzer`, ends with
`ReplyAgent`, is duplicate-free; `DatabaseAgent` is included iff
`customer_info` is non-null (an error dict counts as present); and
`TechSolver` is included iff `technical_solution` is non-null AND
non-empty. -/
theorem agents_used_accounting (env : Env) (t : String) (cid0 : Option String) :
    (process_support_ticket env t cid0).1.agents_used.head? = some "TicketAnalyzer" ∧
    (process_support_ticket env t cid0).1.agents_used.getLast? = some "ReplyAgent" ∧
    (process_support_ticket env t cid0).1.agents_used.Nodup ∧
    ("DatabaseAgent" ∈ (process_support_ticket env t cid0).1.agents_used ↔
        (process_support_ticket env t cid0).1.customer_info ≠ none) ∧
    ("TechSolver" ∈ (process_support_ticket env t cid0).1.agents_used ↔
        ∃ s, (process_support_ticket env t cid0).1.technical_solution = some s ∧ s ≠ "") := by
  rw [← truthyInfo_process env t cid0, ← truthySolution_iff, process_agents_used_eq]
  by_cases h1 : truthyInfo (process_support_ticket env t cid0).1.customer_info <;>
    by_cases h2 : truthySolution (process_support_ticket env t cid0).1.technical_solution <;>
      simp [h1, h2]

/-- Witness for C3 at a concrete run. -/
theorem agents_used_accounting_witness :
    (process_support_ticket envBilling "Rechnung" (some "CUST001")).1.agents_used.head? =
      some "TicketAnalyzer" ∧
    (process_support_ticket envBilling "Rechnung" (some "CUST001")).1.agents_used.getLast? =
      some "ReplyAgent" := by
  have h := agents_used_accounting envBilling "Rechnung" (some "CUST001")
  exact ⟨h.1, h.2.1⟩

/-- C4: `query_customer_info` never raises (the embedding is a total
function into result values) and each failure is an error value: an
empty id or one without the `CUST` prefix yields the format error
message; with a valid id, a failed connection, a raising query and a
missing row each yield their respective error message. -/
theorem query_customer_info_errors (db : QueryBehavior) (cid qt : String) :
    (cid = "" ∨ pyStartsWith cid "CUST" = false →
        query_customer_info db cid qt =
          .err ("Invalid customer ID format: " ++ cid ++ ". Expected format: CUSTXXX")) ∧
    (¬ (cid = "" ∨ pyStartsWith cid "CUST" = false) →
      (db = .connFail → query_customer_info db cid qt = .err "Database connection failed") ∧
      (∀ e, db = .raised e →
          query_customer_info db cid qt = .err ("Database query failed: " ++ e)) ∧
      (db = .notFound →
          query_customer_info db cid qt =
            .err ("Customer " ++ cid ++ " not found in database"))) := by
  constructor
  · intro h
    simp [query_customer_info, h]
  · intro h
    refine ⟨fun hdb => ?_, fun e hdb => ?_, fun hdb => ?_⟩ <;>
      simp [query_customer_info, h, hdb]

/-- Witness for C4 at each failure shape. -/
theorem query_customer_info_errors_witness :
    query_customer_info .notFound "X123" "full" =
      .err "Invalid customer ID format: X123. Expected format: CUSTXXX" ∧
    query_customer_info .connFail "CUST042" "full" = .err "Database connection failed" ∧
    query_customer_info (.raised "timeout") "CUST042" "full" =
      .err "Database query failed: timeout" ∧
    query_customer_info .notFound "CUST042" "full" =
      .err "Customer CUST042 not found in database" :=
  ⟨(query_customer_info_errors .notFound "X123" "full").1 (by decide),
   ((query_customer_info_errors .connFail "CUST042" "full").2 (by decide)).1 rfl,
   ((query_customer_info_errors (.raised "timeout") "CUST042" "full").2
      (by decide)).2.1 "timeout" rfl,
   ((query_customer_info_errors .notFound "CUST042" "full").2 (by decide)).2.2 rfl⟩

/-- C5: `update_ticket_recommendation` makes no store call when the
ticket id is `none`; on a store error it rolls back and returns (the
embedding is total, so nothing is raised); and the orchestrator skips
the update step entirely whenever the insert yielded a null ticket id. -/
theorem update_skip_and_rollback (udb : UpdateBehavior) (ans : String)
    (env : Env) (t : String) (cid0 : Option String) :
    update_ticket_recommendation udb none ans = .skipped ∧
    (∀ tid e, tid ≠ 0 → udb = .raised e →
        update_ticket_recommendation udb (some tid) ans = .rolledBack e) ∧
    ((process_support_ticket env t cid0).1.ticket_id = none →
        (process_support_ticket env t cid0).2.update_outcome = none) := by
  refine ⟨rfl, ?_, ?_⟩
  · intro tid e htid hdb
    subst hdb
    simp [update_ticket_recommendation, htid]
  · intro h
    rw [process_ticket_id_eq] at h
    rw [process_update_outcome_eq, h]
    simp [truthyTicketId]

/-- Witness for C5: skipped update on null id, rollback on a raising
update, and no update call after a failed insert. -/
theorem update_skip_and_rollback_witness :
    update_ticket_recommendation (.raised "disk full") none "Antwort" = .skipped ∧
    update_ticket_recommendation (.raised "disk full") (some 7) "Antwort" =
      .rolledBack "disk full" ∧
    (process_support_ticket envInsertFail "Hallo" none).2.update_outcome = none := by
  have h := update_skip_and_rollback (.raised "disk full") "Antwort" envInsertFail
    "Hallo" none
  exact ⟨h.1, h.2.1 7 "disk full" (by decide) rfl, h.2.2 (by decide)⟩

/-- C6 counterexample: the raw service answer `" CUST007"` does not
start with `CUST` (it starts with a space), yet `extract_customer_id`
returns `some "CUST007"` — the code validates the STRIPPED answer, so
the claim over the raw answer is false. -/
theorem extract_raw_answer_counterexample :
    pyStartsWith " CUST007" "CUST" = false ∧
    extract_customer_id (.returns " CUST007") = some "CUST007" := by
  decide

/-- C6 (amended): `extract_customer_id` maps the whitespace-trimmed
service answer to `none` whenever the trimmed answer is the literal
sentinel `NONE` or does not start with `CUST`; any returned id is
exactly the trimmed answer (never fabricated); and a raising transport
or service failure maps to `none`. -/
theorem extract_validates_trimmed_answer (s e : String) :
    (pyStrip s = "NONE" ∨ pyStartsWith (pyStrip s) "CUST" = false →
        extract_customer_id (.returns s) = none) ∧
    (∀ r, extract_customer_id (.returns s) = some r →
        r = pyStrip s ∧ pyStrip s ≠ "NONE" ∧ pyStartsWith (pyStrip s) "CUST" = true) ∧
    extract_customer_id (.raises e) = none := by
  refine ⟨fun h => by simp [extract_customer_id, call_openai, h], ?_,
    extract_raises_eq_none e⟩
  intro r hr
  have hr' : (if pyStrip s = "NONE" ∨ pyStartsWith (pyStrip s) "CUST" = false then none
      else some (pyStrip s)) = some r := hr
  split at hr'
  · simp at hr'
  case isFalse h =>
    push_neg at h
    rw [Option.some.injEq] at hr'
    exact ⟨hr'.symm, h.1, by simpa using h.2⟩

/-- Witness for C6: the sentinel answer and a raising call both map to
`none`. -/
theorem extract_validates_trimmed_answer_witness :
    extract_customer_id (.returns "NONE") = none ∧
    extract_customer_id (.raises "Connection refused") = none := by
  have h := extract_validates_trimmed_answer "NONE" "Connection refused"
  exact ⟨h.1 (by decide), h.2.2⟩

/-- C7: a full-scope lookup that finds a row surfaces `join_date` and
`last_payment` as `YYYY-MM-DD` strings, normalizes a null
`support_history` to the empty list, and no successful lookup of the
row (any scope) leaves a native date object among the returned values. -/
theorem lookup_surfaces_dates_as_strings (row : CustomerRow) (cid : String)
    (jd lp : Date) (d : Record)
    (hjd : row.join_date = some jd) (hlp : row.last_payment = some lp)
    (h : query_customer_info (.found row) cid "full" = .ok d) :
    d.lookup "join_date" = some (.str (strftimeYMD jd)) ∧
    d.lookup "last_payment" = some (.str (strftimeYMD lp)) ∧
    (row.support_history = none → d.lookup "support_history" = some (.list [])) ∧
    ∀ q (d2 : Record), query_customer_info (.found row) cid q = .ok d2 →
        recordHasDateObject d2 = false := by
  by_cases hv : cid = "" ∨ pyStartsWith cid "CUST" = false
  · simp [query_customer_info, hv] at h
  · have h' : convertRow
        [("customer_id", .str row.customer_id), ("name", .str row.name),
         ("email", .str row.email), ("plan", .str row.plan),
         ("join_date", optDateValue row.join_date),
         ("last_payment", optDateValue row.last_payment),
         ("support_history", optHistValue row.support_history)] = d := by
      have := h
      simp [query_customer_info, hv] at this
      exact this
    subst h'
    refine ⟨?_, ?_, ?_, ?_⟩
    · simp +decide [convertRow, hjd, optDateValue, List.lookup]
    · simp +decide [convertRow, hjd, hlp, optDateValue, optHistValue, List.lookup]
    · intro hsh
      simp +decide [convertRow, hjd, hlp, hsh, optDateValue, optHistValue, List.lookup]
    · intro q d2 h2
      rw [query_customer_info, if_neg hv] at h2
      by_cases hb : q = "billing"
      · rw [if_pos hb] at h2
        rw [LookupResult.ok.injEq] at h2
        subst h2
        simp +decide [convertRow, hlp, optDateValue, recordHasDateObject]
      · rw [if_neg hb] at h2
        by_cases hh : q = "history"
        · rw [if_pos hh] at h2
          rw [LookupResult.ok.injEq] at h2
          subst h2
          cases hsh : row.support_history <;>
            simp +decide [convertRow, hjd, hsh, optDateValue, optHistValue,
              recordHasDateObject]
        · rw [if_neg hh] at h2
          rw [LookupResult.ok.injEq] at h2
          subst h2
          cases hsh : row.support_history <;>
            simp +decide [convertRow, hjd, hlp, hsh, optDateValue, optHistValue,
              recordHasDateObject]

/-- Witness for C7 at the concrete row `row0`. -/
theorem lookup_surfaces_dates_as_strings_witness :
    List.lookup "join_date" fullRecord0 = some (Value.str (strftimeYMD ⟨2023, 5, 7⟩)) ∧
    List.lookup "last_payment" fullRecord0 = some (Value.str (strftimeYMD ⟨2024, 9, 1⟩)) ∧
    recordHasDateObject fullRecord0 = false := by
  have h := lookup_surfaces_dates_as_strings row0 "CUST001" ⟨2023, 5, 7⟩ ⟨2024, 9, 1⟩
    fullRecord0 rfl rfl (by decide)
  exact ⟨h.1, h.2.1, h.2.2.2 "full" fullRecord0 (by decide)⟩

/-- C9: passing the empty string as the caller-supplied customer id is
indistinguishable from passing no id: the whole run (result and trace)
is equal, the extractor is invoked, and the empty string is never used
as a lookup key. -/
theorem empty_id_behaves_as_none (env : Env) (t : String) :
    process_support_ticket env t (some "") = process_support_ticket env t none ∧
    (process_support_ticket env t (some "")).2.extractorInvoked = true ∧
    ∀ c, (process_support_ticket env t (some "")).2.lookup_call = some c →
        c.customer_id ≠ "" := by
  refine ⟨rfl, rfl, ?_⟩
  intro c hc
  rw [process_lookup_call_eq] at hc
  split at hc
  case isTrue h =>
    rw [Option.some.injEq] at hc
    subst hc
    exact truthyId_getD_ne _ (Bool.and_elim_right h)
  case isFalse h => exact absurd hc (by simp)

/-- Witness for C9 at a concrete run. -/
theorem empty_id_behaves_as_none_witness :
    process_support_ticket envTech "ticket" (some "") =
      process_support_ticket envTech "ticket" none ∧
    (process_support_ticket envTech "ticket" (some "")).2.extractorInvoked = true := by
  have h := empty_id_behaves_as_none envTech "ticket"
  exact ⟨h.1, h.2.1⟩

/-- C10: every billing-scope lookup that finds a row returns a record
whose `status` entry is the constant string `Active`, for every stored
row — the value is hardcoded in the SQL (`'Active' as status`), not
read from the store. -/
theorem billing_status_hardcoded (row : CustomerRow) (cid : String) (d : Record)
    (h : query_customer_info (.found row) cid "billing" = .ok d) :
    d.lookup "status" = some (.str "Active") := by
  by_cases hv : cid = "" ∨ pyStartsWith cid "CUST" = false
  · simp [query_customer_info, hv] at h
  · simp [query_customer_info, hv] at h
    subst h
    cases hl : row.last_payment <;>
      simp [convertRow, optDateValue, hl, List.lookup]

/-- Witness for C10 at the concrete row `row0`. -/
theorem billing_status_hardcoded_witness :
    (query_customer_info (.found row0) "CUST001" "billing" =
      .ok [("name", .str "Sarah"), ("plan", .str "Premium"),
           ("last_payment", .str "2024-09-01"), ("status", .str "Active")]) ∧
    List.lookup "status"
      [("name", Value.str "Sarah"), ("plan", Value.str "Premium"),
       ("last_payment", Value.str "2024-09-01"), ("status", Value.str "Active")] =
      some (Value.str "Active") :=
  ⟨by decide, billing_status_hardcoded row0 "CUST001" _ (by decide)⟩

end Support
